import Mathlib

/-
Shallow embedding of `src/utils/util_model.py` (triplet-loss place-recognition
training module).

Modelling conventions:
* Tensors are lists; float scalars are elements of a linear ordered field.
  The hooks and the misclassified-export machinery (`on_validation_epoch_end`,
  `on_test_epoch_end`, the export scan, `save_images`) only move, compare and
  concatenate scalars, so they are defined generically over a
  `LinearOrderedField` and are executable at `ℚ`; the network / distance /
  loss layer needs a square root and lives over `ℝ`.
* `torch.cat` over an empty list of tensors raises; the epoch-end hooks model
  this by returning `none` (and leaving the accumulator untouched), mirroring
  the exception propagating before any further statement runs.
* The external collaborators `roc_curve`, `auc` and `find_best_threshold`
  (sklearn / utils.util_vis, outside this file's source) are passed in as an
  abstract record of functions: the claims below depend only on what is passed
  to them, never on their values.
* Python's float formatting `f"{wrong:.2f}"` is abstracted as a `fmt2`
  function parameter (two-decimal rendering of a float is a float-level
  detail); filenames are otherwise built exactly as in the source.
-/

namespace UtilModel

variable {α : Type} [LinearOrderedField α]

/-- External collaborators of the epoch-end hooks: `sklearn.metrics.roc_curve`
(returning `(fpr, tpr, thresholds)`), `sklearn.metrics.auc`, and
`utils.util_vis.find_best_threshold`. -/
structure ExternalFns (α : Type) where
  roc_curve : List α → List α → List α × List α × List α
  auc : List α → List α → α
  find_best_threshold : List α → List α → List α → α

/-- Filesystem effects performed by `save_images`: `os.makedirs(...,
exist_ok=True)` and one image file written per `_save_image` call. -/
inductive FSEffect (α : Type) where
  | mkdirExistOk (path : String)
  | writeImage (tensor : List α) (path : String)
deriving DecidableEq

/-- Mirrors `LightningTripletNet.save_images`: always ensures the
`misclassified` directory exists, then writes anchor+positive for
`label_type == 'pos'`, anchor+negative for `'neg'`, and nothing otherwise.
`fmt2` stands for Python's `f"{wrong:.2f}"` two-decimal float formatting. -/
def save_images (fmt2 : α → String) (anchor positive negative : List α)
    (batch_idx img_idx : Nat) (wrong : α) (label_type : String) :
    List (FSEffect α) :=
  let wrong_str := fmt2 wrong
  let stem := toString batch_idx ++ "_" ++ toString img_idx ++ "_" ++ wrong_str
  FSEffect.mkdirExistOk "misclassified" ::
    (if label_type = "pos" then
      [FSEffect.writeImage anchor ("misclassified/" ++ stem ++ "_anchor_pos.png"),
       FSEffect.writeImage positive ("misclassified/" ++ stem ++ "_positive.png")]
    else if label_type = "neg" then
      [FSEffect.writeImage anchor ("misclassified/" ++ stem ++ "_anchor_neg.png"),
       FSEffect.writeImage negative ("misclassified/" ++ stem ++ "_negative.png")]
    else [])

/-- One element of `test_step_outputs`: the tuple
`(a, p, n, dist_pos, dist_neg)` appended by `test_step` (batched tensors as
lists of per-sample entries). -/
structure TestOut (α : Type) where
  a : List (List α)
  p : List (List α)
  n : List (List α)
  dist_pos : List α
  dist_neg : List α
deriving DecidableEq

/-- Inner loop of the misclassified-export scan in `on_test_epoch_end`:
`for i in range(len(dist_pos))` with the running `saved_count`.  Each
iteration first breaks when `saved_count >= 10`, then exports a 'pos' pair
when `dist_pos[i] >= best_threshold` and a 'neg' pair when
`dist_neg[i] < best_threshold`, each export bumping `saved_count` by one.
Out-of-range indexing is modelled with `getD` (all lists have equal length in
every reachable state). -/
def innerScan (fmt2 : α → String) (thr : α) (b_idx : Nat) (out : TestOut α) :
    List Nat → Nat → List (FSEffect α) × Nat
  | [], c => ([], c)
  | i :: rest, c =>
    if 10 ≤ c then ([], c)
    else
      let ai := out.a.getD i []
      let pi := out.p.getD i []
      let ni := out.n.getD i []
      let e1 : List (FSEffect α) × Nat :=
        if out.dist_pos.getD i 0 ≥ thr then
          (save_images fmt2 ai pi ni b_idx i (out.dist_pos.getD i 0) "pos", c + 1)
        else ([], c)
      let e2 : List (FSEffect α) × Nat :=
        if out.dist_neg.getD i 0 < thr then
          (save_images fmt2 ai pi ni b_idx i (out.dist_neg.getD i 0) "neg", e1.2 + 1)
        else ([], e1.2)
      let tail := innerScan fmt2 thr b_idx out rest e2.2
      (e1.1 ++ e2.1 ++ tail.1, tail.2)

/-- Outer loop of the export scan: `for batch_idx, (...) in
enumerate(...)`, breaking after a batch once `saved_count >= 10`. -/
def outerScan (fmt2 : α → String) (thr : α) :
    Nat → List (TestOut α) → Nat → List (FSEffect α) × Nat
  | _, [], c => ([], c)
  | b_idx, out :: rest, c =>
    let e := innerScan fmt2 thr b_idx out (List.range out.dist_pos.length) c
    if 10 ≤ e.2 then e
    else
      let r := outerScan fmt2 thr (b_idx + 1) rest e.2
      (e.1 ++ r.1, r.2)

/-- The whole export scan of `on_test_epoch_end` lines 126-134, starting from
`saved_count = 0` and batch index `0`, over a given list of accumulated
test-step outputs.  Returns the filesystem effects and the final
`saved_count`. -/
def exportScan (fmt2 : α → String) (thr : α) (outputs : List (TestOut α)) :
    List (FSEffect α) × Nat :=
  outerScan fmt2 thr 0 outputs 0

/-- Arithmetic mean, modelling `np.mean` and PyTorch's mean reduction. -/
def mean (l : List α) : α := l.sum / (l.length : α)

/-- Everything `on_validation_epoch_end` computes and hands to collaborators:
the logged scalars, the ROC problem (`y_true`, `y_scores`), the actual score
argument passed to `roc_curve` (the negated scores), and the thresholded
predictions. -/
structure ValEpochResult (α : Type) where
  avg_loss : α
  avg_dist_pos : α
  avg_dist_neg : α
  logs : List (String × α)
  y_true : List α
  y_scores : List α
  roc_score_arg : List α
  roc_auc : α
  best_threshold : α
  y_pred : List Nat
deriving DecidableEq

/-- Mirrors `LightningTripletNet.on_validation_epoch_end`.  The argument is
the current `validation_step_outputs` accumulator; the first component of the
result is the accumulator after the hook (cleared), the second is `none` when
`torch.cat` would raise on an empty accumulator. -/
def on_validation_epoch_end (ext : ExternalFns α)
    (validation_step_outputs : List (List α × List α × List α)) :
    List (List α × List α × List α) × Option (ValEpochResult α) :=
  if validation_step_outputs = [] then (validation_step_outputs, none)
  else
    let loss := (validation_step_outputs.map (fun t => t.1)).flatten
    let dist_pos := (validation_step_outputs.map (fun t => t.2.1)).flatten
    let dist_neg := (validation_step_outputs.map (fun t => t.2.2)).flatten
    let avg_loss := mean loss
    let avg_dist_pos := mean dist_pos
    let avg_dist_neg := mean dist_neg
    let y_true :=
      List.replicate dist_pos.length (1 : α) ++ List.replicate dist_neg.length (0 : α)
    let y_scores := dist_pos ++ dist_neg
    let neg_scores := y_scores.map (fun v => -v)
    let r := ext.roc_curve y_true neg_scores
    let roc_auc := ext.auc r.1 r.2.1
    let best_threshold := ext.find_best_threshold r.1 r.2.1 r.2.2
    let y_pred := neg_scores.map (fun v => if v ≥ best_threshold then 1 else 0)
    ([],
     some { avg_loss := avg_loss, avg_dist_pos := avg_dist_pos,
            avg_dist_neg := avg_dist_neg,
            logs := [("val_loss", avg_loss), ("dist_pos", avg_dist_pos),
                     ("dist_neg", avg_dist_neg)],
            y_true := y_true, y_scores := y_scores, roc_score_arg := neg_scores,
            roc_auc := roc_auc, best_threshold := best_threshold,
            y_pred := y_pred })

/-- Everything `on_test_epoch_end` computes: the ROC problem, the score
argument really passed to `roc_curve`, the chosen threshold, the predictions,
and the filesystem effects of the misclassified-export scan together with the
final `saved_count`. -/
structure TestEpochResult (α : Type) where
  y_true : List α
  y_scores : List α
  roc_score_arg : List α
  roc_auc : α
  best_threshold : α
  y_pred : List Nat
  effects : List (FSEffect α)
  saved_count : Nat
deriving DecidableEq

/-- Mirrors `LightningTripletNet.on_test_epoch_end`.  Note the source clears
`self.test_step_outputs` (line 109) and the export loop (line 127) then
iterates that same, now empty, attribute: the model scans `cleared`
accordingly. -/
def on_test_epoch_end (ext : ExternalFns α) (fmt2 : α → String)
    (test_step_outputs : List (TestOut α)) :
    List (TestOut α) × Option (TestEpochResult α) :=
  if test_step_outputs = [] then (test_step_outputs, none)
  else
    let dist_pos := (test_step_outputs.map (fun o => o.dist_pos)).flatten
    let dist_neg := (test_step_outputs.map (fun o => o.dist_neg)).flatten
    let cleared : List (TestOut α) := []
    let y_true :=
      List.replicate dist_pos.length (1 : α) ++ List.replicate dist_neg.length (0 : α)
    let y_scores := dist_pos ++ dist_neg
    let neg_scores := y_scores.map (fun v => -v)
    let r := ext.roc_curve y_true neg_scores
    let roc_auc := ext.auc r.1 r.2.1
    let best_threshold := ext.find_best_threshold r.1 r.2.1 r.2.2
    let y_pred := neg_scores.map (fun v => if v ≥ best_threshold then 1 else 0)
    let scan := exportScan fmt2 best_threshold cleared
    (cleared,
     some { y_true := y_true, y_scores := y_scores, roc_score_arg := neg_scores,
            roc_auc := roc_auc, best_threshold := best_threshold,
            y_pred := y_pred, effects := scan.1, saved_count := scan.2 })

/-! The network / distance / loss layer, over `ℝ` (PyTorch float tensors). -/

/-- Mirrors `EmbedNet`: owns a backbone feature extractor and a projection
model, both opaque image-to-tensor functions with fixed weights. -/
structure EmbedNet where
  backbone : List ℝ → List ℝ
  model : List ℝ → List ℝ

/-- Mirrors `EmbedNet.forward`: `x = backbone(x); embedded_x = model(x)`. -/
def EmbedNet.forward (net : EmbedNet) (x : List ℝ) : List ℝ :=
  let x1 := net.backbone x
  let embedded_x := net.model x1
  embedded_x

/-- Mirrors `TripletNet`: owns a single `EmbedNet`. -/
structure TripletNet where
  embed_net : EmbedNet

/-- Mirrors `TripletNet.forward`: the same `embed_net` applied to anchor,
positive and negative. -/
def TripletNet.forward (t : TripletNet) (a p n : List ℝ) :
    List ℝ × List ℝ × List ℝ :=
  (t.embed_net.forward a, t.embed_net.forward p, t.embed_net.forward n)

/-- Mirrors `TripletNet.feature_extract`. -/
def TripletNet.feature_extract (t : TripletNet) (x : List ℝ) : List ℝ :=
  t.embed_net.forward x

/-- Batched application of `TripletNet.forward`, modelling the batched tensor
call `self.triplet_net(a, p, n)` as per-sample application. -/
def TripletNet.forwardBatch (t : TripletNet)
    (batch : List (List ℝ × List ℝ × List ℝ)) :
    List (List ℝ) × List (List ℝ) × List (List ℝ) :=
  (batch.map (fun s => (t.forward s.1 s.2.1 s.2.2).1),
   batch.map (fun s => (t.forward s.1 s.2.1 s.2.2).2.1),
   batch.map (fun s => (t.forward s.1 s.2.1 s.2.2).2.2))

noncomputable section

/-- Mirrors `F.pairwise_distance` with p=2: the Euclidean distance between two
embedding vectors (the 1e-6 epsilon is a float-rounding guard, dropped in the
real-number model). -/
def pairwise_distance (x y : List ℝ) : ℝ :=
  Real.sqrt (List.zipWith (fun u v => (u - v) ^ 2) x y).sum

/-- Per-sample `nn.TripletMarginLoss`:
`max(d(a,p) - d(a,n) + margin, 0)` with `d` the pairwise distance. -/
def tripletMarginSample (margin : ℝ) (a p n : List ℝ) : ℝ :=
  max (pairwise_distance a p - pairwise_distance a n + margin) 0

/-- `nn.TripletMarginLoss(margin, reduction='none')` on batched embeddings. -/
def tripletMarginLossNone (margin : ℝ) (ea ep en : List (List ℝ)) : List ℝ :=
  List.zipWith3 (tripletMarginSample margin) ea ep en

/-- `nn.TripletMarginLoss(margin)` with the default mean reduction. -/
def tripletMarginLossMean (margin : ℝ) (ea ep en : List (List ℝ)) : ℝ :=
  mean (tripletMarginLossNone margin ea ep en)

/-- Mirrors `LightningTripletNet`: the configuration scalars, the owned
triplet network, and the two epoch accumulators. -/
structure LightningTripletNet where
  margin : ℝ
  learning_rate : ℝ
  triplet_net : TripletNet
  validation_step_outputs : List (List ℝ × List ℝ × List ℝ)
  test_step_outputs : List (TestOut ℝ)

/-- Mirrors `training_step`: embeds the batch, takes the mean triplet margin
loss, logs `train_loss` (second component) and returns the loss (first). -/
def training_step (m : LightningTripletNet)
    (batch : List (List ℝ × List ℝ × List ℝ)) : ℝ × List (String × ℝ) :=
  let e := m.triplet_net.forwardBatch batch
  let loss := tripletMarginLossMean m.margin e.1 e.2.1 e.2.2
  (loss, [("train_loss", loss)])

/-- Mirrors `validation_step`: per-sample losses (`reduction='none'`),
per-sample `dist_pos` and `dist_neg`, appended to the accumulator; the updated
module state is the first component, the returned triple the second. -/
def validation_step (m : LightningTripletNet)
    (batch : List (List ℝ × List ℝ × List ℝ)) :
    LightningTripletNet × (List ℝ × List ℝ × List ℝ) :=
  let e := m.triplet_net.forwardBatch batch
  let loss := tripletMarginLossNone m.margin e.1 e.2.1 e.2.2
  let dist_pos := List.zipWith pairwise_distance e.1 e.2.1
  let dist_neg := List.zipWith pairwise_distance e.1 e.2.2
  ({ m with validation_step_outputs :=
      m.validation_step_outputs ++ [(loss, dist_pos, dist_neg)] },
   (loss, dist_pos, dist_neg))

/-- Mirrors `test_step`: like `validation_step` but the raw batched tensors
are retained in the accumulator alongside the distances, and only the loss is
returned. -/
def test_step (m : LightningTripletNet)
    (batch : List (List ℝ × List ℝ × List ℝ)) : LightningTripletNet × List ℝ :=
  let e := m.triplet_net.forwardBatch batch
  let loss := tripletMarginLossNone m.margin e.1 e.2.1 e.2.2
  let dist_pos := List.zipWith pairwise_distance e.1 e.2.1
  let dist_neg := List.zipWith pairwise_distance e.1 e.2.2
  ({ m with test_step_outputs := m.test_step_outputs ++
      [{ a := batch.map (fun s => s.1), p := batch.map (fun s => s.2.1),
         n := batch.map (fun s => s.2.2),
         dist_pos := dist_pos, dist_neg := dist_neg }] },
   loss)

/-- Spec-side Euclidean distance, written as the spec describes it: the square
root of the sum of squared coordinate differences. -/
def euclideanDist (x y : List ℝ) : ℝ :=
  Real.sqrt ((List.zipWith (fun u v => u - v) x y).map (fun d => d ^ 2)).sum

/-- Spec-side per-sample training loss formula:
`max(0, d(a,p) - d(a,n) + margin)` with `d` the Euclidean distance. -/
def specTripletLoss (margin : ℝ) (a p n : List ℝ) : ℝ :=
  max 0 (euclideanDist a p - euclideanDist a n + margin)

end

/-- The concatenation (`torch.cat`) of the accumulated per-batch `dist_pos`
tensors of `validation_step_outputs`. -/
def catDistPos (vouts : List (List α × List α × List α)) : List α :=
  (vouts.map (fun t => t.2.1)).flatten

/-- The concatenation of the accumulated per-batch `dist_neg` tensors of
`validation_step_outputs`. -/
def catDistNeg (vouts : List (List α × List α × List α)) : List α :=
  (vouts.map (fun t => t.2.2)).flatten

/-- The concatenation of the accumulated per-batch `dist_pos` tensors of
`test_step_outputs`. -/
def testDistPos (touts : List (TestOut α)) : List α :=
  (touts.map (fun o => o.dist_pos)).flatten

/-- The concatenation of the accumulated per-batch `dist_neg` tensors of
`test_step_outputs`. -/
def testDistNeg (touts : List (TestOut α)) : List α :=
  (touts.map (fun o => o.dist_neg)).flatten

/-! Concrete rational-valued inputs used to exercise the model. -/

/-- A concrete stand-in for the two-decimal float formatter. -/
def fmtQ : ℚ → String := fun q => toString q

/-- Concrete external collaborators whose chosen threshold is `0`. -/
def ext0 : ExternalFns ℚ :=
  { roc_curve := fun _ _ => ([], [], []), auc := fun _ _ => 0,
    find_best_threshold := fun _ _ _ => 0 }

/-- Concrete external collaborators whose chosen threshold is `1`. -/
def ext1 : ExternalFns ℚ :=
  { roc_curve := fun _ _ => ([], [], []), auc := fun _ _ => 0,
    find_best_threshold := fun _ _ _ => 1 }

/-- A test batch of 10 samples, every one a qualifying misclassified positive
pair under threshold `0` (`dist_pos = 1 >= 0`) and no qualifying negative pair
(`dist_neg = 5 < 0` is false). -/
def batch10 : TestOut ℚ :=
  { a := List.replicate 10 [0], p := List.replicate 10 [0],
    n := List.replicate 10 [0],
    dist_pos := List.replicate 10 1, dist_neg := List.replicate 10 5 }

/-- Twenty qualifying misclassified samples accumulated across two test
batches. -/
def touts20 : List (TestOut ℚ) := [batch10, batch10]

/-- One accumulated sample whose `dist_pos` and `dist_neg` both equal the
chosen threshold `1` exactly. -/
def touts1 : List (TestOut ℚ) :=
  [{ a := [[0]], p := [[0]], n := [[0]], dist_pos := [1], dist_neg := [1] }]

/-- A one-batch validation accumulator. -/
def vouts0 : List (List ℚ × List ℚ × List ℚ) := [([5], [2], [3])]

/-- A one-batch test accumulator. -/
def touts0 : List (TestOut ℚ) :=
  [{ a := [[0]], p := [[0]], n := [[0]], dist_pos := [2], dist_neg := [3] }]

/-! Helper lemmas. -/

lemma pairwise_distance_nonneg (x y : List ℝ) : 0 ≤ pairwise_distance x y :=
  Real.sqrt_nonneg _

lemma tripletMarginSample_eq_spec (margin : ℝ) (a p n : List ℝ) :
    tripletMarginSample margin a p n = specTripletLoss margin a p n := by
  unfold tripletMarginSample specTripletLoss pairwise_distance euclideanDist
  simp only [List.map_zipWith]
  rw [max_comm]

lemma lossNone_forwardBatch (margin : ℝ) (t : TripletNet)
    (batch : List (List ℝ × List ℝ × List ℝ)) :
    tripletMarginLossNone margin (t.forwardBatch batch).1
      (t.forwardBatch batch).2.1 (t.forwardBatch batch).2.2 =
    batch.map (fun s => specTripletLoss margin (t.embed_net.forward s.1)
      (t.embed_net.forward s.2.1) (t.embed_net.forward s.2.2)) := by
  unfold TripletNet.forwardBatch tripletMarginLossNone
  induction batch with
  | nil => rfl
  | cons s rest ih =>
    simp only [List.map_cons, List.zipWith3]
    exact congrArg₂ List.cons (tripletMarginSample_eq_spec _ _ _ _) ih

lemma zipWith_pairwise_forall_nonneg (l1 l2 : List (List ℝ)) :
    (List.zipWith pairwise_distance l1 l2).Forall (fun d => 0 ≤ d) := by
  induction l1 generalizing l2 with
  | nil => simp [List.Forall]
  | cons a as ih =>
    cases l2 with
    | nil => simp [List.Forall]
    | cons b bs =>
      exact (List.forall_cons _ _ _).mpr ⟨pairwise_distance_nonneg a b, ih bs⟩

/-! Claim theorems. -/

/-- Claim C3: `feature_extract(x)` equals the anchor-branch component of
`forward(x, x, x)`: both are the one owned `embed_net` applied to `x` with the
same weights. -/
theorem feature_extract_eq_forward_anchor (t : TripletNet) (x : List ℝ) :
    t.feature_extract x = (t.forward x x x).1 := rfl

/-- Claim C4: `EmbedNet.forward` is the pure composition of the projection
model after the backbone; no other state is consulted or modified. -/
theorem embedNet_forward_eq_composition (net : EmbedNet) (x : List ℝ) :
    net.forward x = net.model (net.backbone x) := rfl

/-- Claim C5: `training_step` returns the triplet margin loss
`max(0, d(a,p) - d(a,n) + margin)` averaged over the batch, with `d` the
Euclidean distance on embeddings and `margin` the configured value, and logs
exactly that scalar as `train_loss`. -/
theorem training_step_spec (m : LightningTripletNet)
    (batch : List (List ℝ × List ℝ × List ℝ)) :
    (training_step m batch).1 =
      mean (batch.map (fun s => specTripletLoss m.margin
        (m.triplet_net.embed_net.forward s.1)
        (m.triplet_net.embed_net.forward s.2.1)
        (m.triplet_net.embed_net.forward s.2.2))) ∧
    (training_step m batch).2 = [("train_loss", (training_step m batch).1)] := by
  refine ⟨?_, rfl⟩
  show tripletMarginLossMean m.margin (m.triplet_net.forwardBatch batch).1
      (m.triplet_net.forwardBatch batch).2.1
      (m.triplet_net.forwardBatch batch).2.2 = _
  unfold tripletMarginLossMean
  rw [lossNone_forwardBatch]

/-- Claim C6: every per-sample distance `dist_pos` and `dist_neg` produced by
`validation_step` is nonnegative (each is a Euclidean pairwise distance). -/
theorem validation_step_distances_nonneg (m : LightningTripletNet)
    (batch : List (List ℝ × List ℝ × List ℝ)) :
    ((validation_step m batch).2.2.1).Forall (fun d => 0 ≤ d) ∧
    ((validation_step m batch).2.2.2).Forall (fun d => 0 ≤ d) :=
  ⟨zipWith_pairwise_forall_nonneg _ _, zipWith_pairwise_forall_nonneg _ _⟩

/-- Claim C9: the arithmetic mean of the per-sample loss vector computed by
`validation_step` (`reduction='none'`) equals the scalar loss computed by
`training_step` on the same batch with the same weights and margin. -/
theorem mean_validation_loss_eq_training_loss (m : LightningTripletNet)
    (batch : List (List ℝ × List ℝ × List ℝ)) :
    mean (validation_step m batch).2.1 = (training_step m batch).1 := rfl

/-- Claim C8: each epoch-end hook leaves its accumulator empty, so the
accumulator is empty before the next epoch accumulates, and a second call of
the hook without new batches in between reads an empty accumulator and
aggregates nothing (no batch is double-counted). -/
theorem epoch_end_clears_accumulator (ext ext' : ExternalFns α)
    (fmt2 : α → String) (vouts : List (List α × List α × List α))
    (touts : List (TestOut α)) :
    (on_validation_epoch_end ext vouts).1 = [] ∧
    (on_test_epoch_end ext' fmt2 touts).1 = [] ∧
    (on_validation_epoch_end ext (on_validation_epoch_end ext vouts).1).2 = none ∧
    (on_test_epoch_end ext' fmt2 (on_test_epoch_end ext' fmt2 touts).1).2 = none := by
  have h1 : (on_validation_epoch_end ext vouts).1 = [] := by
    by_cases h : vouts = [] <;> simp [on_validation_epoch_end, h]
  have h2 : (on_test_epoch_end ext' fmt2 touts).1 = [] := by
    by_cases h : touts = [] <;> simp [on_test_epoch_end, h]
  refine ⟨h1, h2, ?_, ?_⟩
  · rw [h1]; simp [on_validation_epoch_end]
  · rw [h2]; simp [on_test_epoch_end]

/-- Claim C7: at both epoch ends the ROC problem is built as `y_true` = ones
of the length of the concatenated `dist_pos` followed by zeros of the length
of the concatenated `dist_neg`, `y_scores` = `dist_pos` followed by
`dist_neg` in matching order (equal lengths), and the score list actually
passed to `roc_curve` is the negated `y_scores`. -/
theorem roc_inputs_spec (ext ext' : ExternalFns α) (fmt2 : α → String)
    (vouts : List (List α × List α × List α)) (touts : List (TestOut α))
    (hv : vouts ≠ []) (ht : touts ≠ []) :
    ((on_validation_epoch_end ext vouts).2.map (fun r => r.y_true) =
      some (List.replicate (catDistPos vouts).length (1 : α) ++
            List.replicate (catDistNeg vouts).length 0)) ∧
    ((on_validation_epoch_end ext vouts).2.map (fun r => r.y_scores) =
      some (catDistPos vouts ++ catDistNeg vouts)) ∧
    ((on_validation_epoch_end ext vouts).2.map (fun r => r.y_true.length) =
      (on_validation_epoch_end ext vouts).2.map (fun r => r.y_scores.length)) ∧
    ((on_validation_epoch_end ext vouts).2.map (fun r => r.roc_score_arg) =
      some ((catDistPos vouts ++ catDistNeg vouts).map (fun v => -v))) ∧
    ((on_test_epoch_end ext' fmt2 touts).2.map (fun r => r.y_true) =
      some (List.replicate (testDistPos touts).length (1 : α) ++
            List.replicate (testDistNeg touts).length 0)) ∧
    ((on_test_epoch_end ext' fmt2 touts).2.map (fun r => r.y_scores) =
      some (testDistPos touts ++ testDistNeg touts)) ∧
    ((on_test_epoch_end ext' fmt2 touts).2.map (fun r => r.y_true.length) =
      (on_test_epoch_end ext' fmt2 touts).2.map (fun r => r.y_scores.length)) ∧
    ((on_test_epoch_end ext' fmt2 touts).2.map (fun r => r.roc_score_arg) =
      some ((testDistPos touts ++ testDistNeg touts).map (fun v => -v))) := by
  refine ⟨?_, ?_, ?_, ?_, ?_, ?_, ?_, ?_⟩ <;>
    simp [on_validation_epoch_end, on_test_epoch_end, hv, ht, catDistPos,
      catDistNeg, testDistPos, testDistNeg]

/-- Concrete instantiation of `roc_inputs_spec` at a one-batch rational
accumulator for each hook. -/
theorem roc_inputs_spec_witness :
    vouts0 ≠ [] ∧ touts0 ≠ [] ∧
    (((on_validation_epoch_end ext0 vouts0).2.map (fun r => r.y_true) =
      some (List.replicate (catDistPos vouts0).length (1 : ℚ) ++
            List.replicate (catDistNeg vouts0).length 0)) ∧
    ((on_validation_epoch_end ext0 vouts0).2.map (fun r => r.y_scores) =
      some (catDistPos vouts0 ++ catDistNeg vouts0)) ∧
    ((on_validation_epoch_end ext0 vouts0).2.map (fun r => r.y_true.length) =
      (on_validation_epoch_end ext0 vouts0).2.map (fun r => r.y_scores.length)) ∧
    ((on_validation_epoch_end ext0 vouts0).2.map (fun r => r.roc_score_arg) =
      some ((catDistPos vouts0 ++ catDistNeg vouts0).map (fun v => -v))) ∧
    ((on_test_epoch_end ext0 fmtQ touts0).2.map (fun r => r.y_true) =
      some (List.replicate (testDistPos touts0).length (1 : ℚ) ++
            List.replicate (testDistNeg touts0).length 0)) ∧
    ((on_test_epoch_end ext0 fmtQ touts0).2.map (fun r => r.y_scores) =
      some (testDistPos touts0 ++ testDistNeg touts0)) ∧
    ((on_test_epoch_end ext0 fmtQ touts0).2.map (fun r => r.y_true.length) =
      (on_test_epoch_end ext0 fmtQ touts0).2.map (fun r => r.y_scores.length)) ∧
    ((on_test_epoch_end ext0 fmtQ touts0).2.map (fun r => r.roc_score_arg) =
      some ((testDistPos touts0 ++ testDistNeg touts0).map (fun v => -v)))) :=
  ⟨by decide, by decide,
   roc_inputs_spec ext0 ext0 fmtQ vouts0 touts0 (by decide) (by decide)⟩

/-- Claim C10: `save_images` with label `'pos'` creates the `misclassified`
directory and writes exactly the anchor and positive images, with label
`'neg'` exactly the anchor and negative images, each filename encoding the
batch index, sample index, formatted distance and role label; any other label
creates the directory and writes nothing.  Each call of `save_images` is one
export-counter slot but two files. -/
theorem save_images_effects {β : Type} (fmt2 : β → String)
    (anchor positive negative : List β) (b i : Nat) (w : β) :
    save_images fmt2 anchor positive negative b i w "pos" =
      [FSEffect.mkdirExistOk "misclassified",
       FSEffect.writeImage anchor ("misclassified/" ++
         (toString b ++ "_" ++ toString i ++ "_" ++ fmt2 w) ++ "_anchor_pos.png"),
       FSEffect.writeImage positive ("misclassified/" ++
         (toString b ++ "_" ++ toString i ++ "_" ++ fmt2 w) ++ "_positive.png")] ∧
    save_images fmt2 anchor positive negative b i w "neg" =
      [FSEffect.mkdirExistOk "misclassified",
       FSEffect.writeImage anchor ("misclassified/" ++
         (toString b ++ "_" ++ toString i ++ "_" ++ fmt2 w) ++ "_anchor_neg.png"),
       FSEffect.writeImage negative ("misclassified/" ++
         (toString b ++ "_" ++ toString i ++ "_" ++ fmt2 w) ++ "_negative.png")] ∧
    (∀ lt : String, lt ≠ "pos" → lt ≠ "neg" →
      save_images fmt2 anchor positive negative b i w lt =
        [FSEffect.mkdirExistOk "misclassified"]) := by
  refine ⟨by simp [save_images], by simp [save_images],
    fun lt h1 h2 => by simp [save_images, h1, h2]⟩

/-- Concrete instantiation of `save_images_effects` at a label that is
neither `'pos'` nor `'neg'`. -/
theorem save_images_effects_witness :
    (("other" : String) ≠ "pos") ∧ (("other" : String) ≠ "neg") ∧
    save_images fmtQ [1] [2] [3] 0 1 (5 : ℚ) "other" =
      [FSEffect.mkdirExistOk "misclassified"] :=
  ⟨by decide, by decide,
   (save_images_effects fmtQ [1] [2] [3] 0 1 (5 : ℚ)).2.2 "other"
     (by decide) (by decide)⟩

/-- Claim C1 is violated by the code: with 20 qualifying misclassified
samples accumulated across two test batches, `on_test_epoch_end` performs
zero exports, because `test_step_outputs` is cleared (source line 109) before
the export loop (line 127) iterates that same attribute — even though the
scan, run on the pre-clear accumulator, would stop at exactly 10 exports. -/
theorem test_epoch_end_exports_nothing :
    ((testDistPos touts20).countP (fun d => decide (d ≥ 0)) = 20) ∧
    ((on_test_epoch_end ext0 fmtQ touts20).2.map (fun r => r.saved_count) =
      some 0) ∧
    ((on_test_epoch_end ext0 fmtQ touts20).2.map (fun r => r.effects) =
      some []) ∧
    ((exportScan fmtQ 0 touts20).2 = 10) := by decide

/-- Claim C2 is violated by the code: for a sample whose `dist_pos` and
`dist_neg` both equal `best_threshold` exactly, the scan conditions as
written would export exactly the positive pair (`>=` holds at equality, the
strict `<` does not), but `on_test_epoch_end` exports nothing at all, because
the accumulator is cleared before the export loop iterates it. -/
theorem test_epoch_boundary_exports_nothing :
    ((on_test_epoch_end ext1 fmtQ touts1).2.map (fun r => r.effects) =
      some []) ∧
    ((on_test_epoch_end ext1 fmtQ touts1).2.map (fun r => r.saved_count) =
      some 0) ∧
    ((exportScan fmtQ 1 touts1).1 = save_images fmtQ [0] [0] [0] 0 0 1 "pos") ∧
    ((exportScan fmtQ 1 touts1).2 = 1) := by decide

end UtilModel
